import Mathlib

/-!
Verification development for the GridPath capacity-expansion model core.

Each Python module under study is shallow-embedded: Pyomo parameters become
functions on a model structure, Pyomo variables become a valuation passed
explicitly, and each constraint rule becomes a Lean definition returning the
proposition the constraint enforces (an `Option Prop`, with `none` standing
for `Constraint.Skip`).  Machinery of the temporal index that lives outside
the studied sources (periods, previous timepoints) is modelled from the
specification, as noted on each definition.
-/

namespace GenRetBin

/-- The retirement variable valuation: the value of `GenRetBin_Retire[g, p]`
for project `g` and period `p`.  The Pyomo domain is `Binary`. -/
def Retirement : Type := String → ℕ → ℚ

/-- Modelled from the spec: the temporal index's periods are totally ordered
with no gaps in the ordering key, so they are represented by the contiguous
integer interval from `firstPeriod` to `lastPeriod`; `mod.first_period` is
`firstPeriod` and `mod.prev_period[p]` is `p - 1`.  The rest of the structure
embeds the data of `gen_ret_bin.add_model_components`: the two-dimensional
project-period set `GEN_RET_BIN_OPR_PRDS` and the required parameters
`gen_ret_bin_capacity_mw` and `gen_ret_bin_fixed_cost_per_mw_yr` defined
over it. -/
structure Model where
  firstPeriod : ℕ
  lastPeriod : ℕ
  oprPrds : List (String × ℕ)
  gen_ret_bin_capacity_mw : String → ℕ → ℚ
  gen_ret_bin_fixed_cost_per_mw_yr : String → ℕ → ℚ

/-- Modelled from the spec: periods are ordered with no gaps, so the
previous period of `p` is `p - 1` (meaningful only away from the first
period, where the caller skips). -/
def prev_period (p : ℕ) : ℕ := p - 1

/-- Embeds `OPR_PRDS_BY_GEN_RET_BIN`: the operational periods of a given
project, read off the two-dimensional project-period set. -/
def opr_prds_by_gen_ret_bin (M : Model) (g : String) : List ℕ :=
  (M.oprPrds.filter fun q => q.1 == g).map Prod.snd

/-- Embeds the derived parameter `gen_ret_bin_first_period`: the minimum of
the project's operational periods (`⊤` when the project has none). -/
def gen_ret_bin_first_period (M : Model) (g : String) : WithTop ℕ :=
  (opr_prds_by_gen_ret_bin M g).minimum

/-- Embeds `retire_forever_rule`: skip when `p` is the temporal index's
first period, skip when `p` is the generator's first period, and otherwise
enforce `GenRetBin_Retire[g, p] >= GenRetBin_Retire[g, prev_period[p]]`.
`none` stands for `Constraint.Skip`. -/
def retire_forever_rule (M : Model) (retire : Retirement) (g : String)
    (p : ℕ) : Option Prop :=
  if p = M.firstPeriod then none
  else if (p : WithTop ℕ) = gen_ret_bin_first_period M g then none
  else some (retire g p ≥ retire g (prev_period p))

/-- A generated constraint holds: trivially when skipped, and as stated
otherwise. -/
def constraintHolds (c : Option Prop) : Prop :=
  match c with
  | none => True
  | some P => P

/-- Embeds `capacity_rule`: pre-specified capacity times one minus the
binary retirement variable. -/
def capacity_rule (M : Model) (retire : Retirement) (g : String) (p : ℕ) :
    ℚ :=
  M.gen_ret_bin_capacity_mw g p * (1 - retire g p)

/-- Embeds `capacity_cost_rule`: fixed cost per MW-year times pre-specified
capacity times one minus the binary retirement variable. -/
def capacity_cost_rule (M : Model) (retire : Retirement) (g : String)
    (p : ℕ) : ℚ :=
  M.gen_ret_bin_fixed_cost_per_mw_yr g p * M.gen_ret_bin_capacity_mw g p
    * (1 - retire g p)

/-- Embeds `new_capacity_rule`: this capacity type never builds new
capacity. -/
def new_capacity_rule (M : Model) (g : String) (p : ℕ) : ℚ := 0

/-- The concrete end-to-end scenario of the spec: one binary-retirement
project with 100 MW capacity and fixed cost 10 per MW-year in each of two
periods. -/
def scenarioModel : Model where
  firstPeriod := 1
  lastPeriod := 2
  oprPrds := [("P", 1), ("P", 2)]
  gen_ret_bin_capacity_mw := fun _ _ => 100
  gen_ret_bin_fixed_cost_per_mw_yr := fun _ _ => 10

/-- The scenario's retirement decision: forced to 1 in period 2, 0 in
period 1. -/
def scenarioRetire : Retirement := fun _ p => if p = 2 then 1 else 0

end GenRetBin

namespace GenRetBin

/-- A retirement valuation that is 1 everywhere, used to exercise the
retire-forever constraint on the concrete scenario. -/
def retireOne : Retirement := fun _ _ => 1

end GenRetBin

/-- C1: the retire-forever constraint enforces
`retire[g, p] >= retire[g, previous_period(p)]` and is skipped exactly when
`p` is the temporal index's global first period or the project's first
operational period; consequently, for binary retirement values satisfying
every generated constraint, once the retirement variable equals 1 in an
operational period it equals 1 in every later operational period of that
project (operational periods being contiguous, as required for the
constraint's reference to the previous period to be well defined). -/
theorem gen_ret_bin_retire_forever_C1
    (M : GenRetBin.Model) (retire : GenRetBin.Retirement)
    (hbin : ∀ g p, retire g p = 0 ∨ retire g p = 1)
    (hcon : ∀ q ∈ M.oprPrds,
      GenRetBin.constraintHolds
        (GenRetBin.retire_forever_rule M retire q.1 q.2))
    (hlo : ∀ q ∈ M.oprPrds, M.firstPeriod ≤ q.2)
    (hcontig : ∀ g k k' p, (g, k) ∈ M.oprPrds → (g, k') ∈ M.oprPrds →
      k ≤ p → p ≤ k' → (g, p) ∈ M.oprPrds)
    (g : String) (k k' : ℕ)
    (hk : (g, k) ∈ M.oprPrds) (hk' : (g, k') ∈ M.oprPrds)
    (hkk : k ≤ k') (hone : retire g k = 1) :
    (∀ h p, GenRetBin.retire_forever_rule M retire h p = none ↔
      (p = M.firstPeriod ∨
        (p : WithTop ℕ) = GenRetBin.gen_ret_bin_first_period M h)) ∧
    retire g k' = 1 := by
  constructor
  · intro h p
    unfold GenRetBin.retire_forever_rule
    split_ifs with h1 h2
    · simp [h1]
    · simp [h2]
    · simp [h1, h2]
  · have hfp : M.firstPeriod ≤ k := hlo (g, k) hk
    have hkmem : k ∈ GenRetBin.opr_prds_by_gen_ret_bin M g := by
      unfold GenRetBin.opr_prds_by_gen_ret_bin
      exact List.mem_map.mpr ⟨(g, k), List.mem_filter.mpr ⟨hk, by simp⟩, rfl⟩
    have hmin : GenRetBin.gen_ret_bin_first_period M g ≤ (k : WithTop ℕ) :=
      List.minimum_le_of_mem' hkmem
    have key : ∀ n, k ≤ n → (g, n) ∈ M.oprPrds → retire g n = 1 := by
      intro n hn
      induction n, hn using Nat.le_induction with
      | base => intro _; exact hone
      | succ n hkn ih =>
        intro hmem
        have hmemn : (g, n) ∈ M.oprPrds :=
          hcontig g k (n + 1) n hk hmem hkn (by omega)
        have hIH : retire g n = 1 := ih hmemn
        have hcons := hcon (g, n + 1) hmem
        have h1 : ¬(n + 1 = M.firstPeriod) := by omega
        have h2 : ¬(((n + 1 : ℕ) : WithTop ℕ) =
            GenRetBin.gen_ret_bin_first_period M g) := by
          intro he
          rw [← he, Nat.cast_withTop] at hmin
          have hle : n + 1 ≤ k := WithTop.coe_le_coe.mp hmin
          omega
        simp only [GenRetBin.retire_forever_rule, if_neg h1, if_neg h2,
          GenRetBin.constraintHolds, GenRetBin.prev_period,
          Nat.add_sub_cancel] at hcons
        rcases hbin g (n + 1) with h0 | h1'
        · rw [h0, hIH] at hcons
          exact absurd hcons (by norm_num)
        · exact h1'
    exact key k' hkk hk'

/-- Witness for C1: in the two-period scenario with the all-ones retirement
valuation, every generated constraint holds and the theorem yields that the
project stays retired in period 2. -/
theorem gen_ret_bin_retire_forever_C1_witness :
    GenRetBin.retireOne "P" 1 = 1 ∧ GenRetBin.retireOne "P" 2 = 1 := by
  refine ⟨rfl, ?_⟩
  refine (gen_ret_bin_retire_forever_C1 GenRetBin.scenarioModel
    GenRetBin.retireOne (fun g p => Or.inr rfl) ?_ (by decide) ?_
    "P" 1 2 (by decide) (by decide) (by decide) rfl).2
  · intro q hq
    simp only [GenRetBin.scenarioModel, List.mem_cons,
      List.not_mem_nil, or_false] at hq
    rcases hq with h | h <;> subst h
    · exact trivial
    · show GenRetBin.retireOne "P" 2 ≥ GenRetBin.retireOne "P" 1
      exact le_refl 1
  · intro g k k' p hk hk' hkp hpk'
    simp only [GenRetBin.scenarioModel, List.mem_cons, List.not_mem_nil,
      or_false, Prod.mk.injEq] at hk hk' ⊢
    rcases hk with ⟨hg, hkv⟩ | ⟨hg, hkv⟩ <;>
      rcases hk' with ⟨_, hk'v⟩ | ⟨_, hk'v⟩ <;> subst hg <;> simp <;> omega

namespace StorageGeneric

/-- Horizon boundary mode of the temporal index. -/
inductive Boundary where
  | circular
  | linear
deriving DecidableEq

/-- Modelled from the spec for the temporal-index part (which lives outside
the studied sources): one horizon whose timepoints are `0, …, n - 1` in
order, with boundary mode `boundary`; `number_of_hours_in_timepoint` and
`period` are per-timepoint data.  The remaining fields embed the parameters
of `storage_generic.add_module_specific_components`:
`storage_generic_charging_efficiency` and
`storage_generic_discharging_efficiency` per project, and the capacity-type
results `Capacity_MW` and `Energy_Capacity_MWh` per project and period. -/
structure Model where
  n : ℕ
  boundary : Boundary
  number_of_hours_in_timepoint : ℕ → ℚ
  period : ℕ → ℕ
  storage_generic_charging_efficiency : String → ℚ
  storage_generic_discharging_efficiency : String → ℚ
  Capacity_MW : String → ℕ → ℚ
  Energy_Capacity_MWh : String → ℕ → ℚ

/-- A valuation of the storage decision variables: discharge, charge and
starting energy per project and timepoint, plus the values of the reserve
variables registered in the dynamic components (component name, project,
timepoint). -/
structure Vars where
  Generic_Storage_Discharge_MW : String → ℕ → ℚ
  Generic_Storage_Charge_MW : String → ℕ → ℚ
  Starting_Energy_in_Generic_Storage_MWh : String → ℕ → ℚ
  reserve : String → String → ℕ → ℚ

/-- The dynamic components consulted by the reserve constraints: the
headroom and footroom variable names registered for each project. -/
structure DynComponents where
  headroom_variables : String → List String
  footroom_variables : String → List String

/-- Modelled from the spec: the previous timepoint is the predecessor in
the horizon's order; the first timepoint's previous timepoint is the
horizon's last timepoint when the boundary is circular and `none` when it
is linear. -/
def previous_timepoint (M : Model) (tmp : ℕ) : Option ℕ :=
  if tmp = 0 then
    if M.boundary = Boundary.circular then some (M.n - 1) else none
  else
    some (tmp - 1)

/-- Embeds `energy_tracking_rule`: skipped (`none`) when `tmp` is the
horizon's first timepoint and the boundary is linear; otherwise the state
of charge equals the previous timepoint's state of charge plus charging
(scaled by duration and charging efficiency) minus discharging (scaled by
duration and divided by discharging efficiency) at the previous
timepoint. -/
def energy_tracking_rule (M : Model) (V : Vars) (s : String) (tmp : ℕ) :
    Option Prop :=
  if tmp = 0 ∧ M.boundary = Boundary.linear then none
  else
    let pt := (previous_timepoint M tmp).getD 0
    some (V.Starting_Energy_in_Generic_Storage_MWh s tmp =
      V.Starting_Energy_in_Generic_Storage_MWh s pt
      + V.Generic_Storage_Charge_MW s pt
        * M.number_of_hours_in_timepoint pt
        * M.storage_generic_charging_efficiency s
      - V.Generic_Storage_Discharge_MW s pt
        * M.number_of_hours_in_timepoint pt
        / M.storage_generic_discharging_efficiency s)

/-- Embeds `max_energy_in_storage_rule`: the starting energy in storage is
at most the energy capacity in the timepoint's period. -/
def max_energy_in_storage_rule (M : Model) (V : Vars) (s : String)
    (tmp : ℕ) : Prop :=
  V.Starting_Energy_in_Generic_Storage_MWh s tmp ≤
    M.Energy_Capacity_MWh s (M.period tmp)

/-- Embeds `max_headroom_energy_rule`: upward reserves, sustained for the
timepoint and divided by the discharging efficiency, are bounded by the
energy available in storage in that timepoint. -/
def max_headroom_energy_rule (M : Model) (V : Vars) (d : DynComponents)
    (s : String) (tmp : ℕ) : Prop :=
  ((d.headroom_variables s).map fun c => V.reserve c s tmp).sum
      * M.number_of_hours_in_timepoint tmp
      / M.storage_generic_discharging_efficiency s ≤
    V.Starting_Energy_in_Generic_Storage_MWh s tmp
    + V.Generic_Storage_Charge_MW s tmp
      * M.number_of_hours_in_timepoint tmp
      * M.storage_generic_charging_efficiency s
    - V.Generic_Storage_Discharge_MW s tmp
      * M.number_of_hours_in_timepoint tmp
      / M.storage_generic_discharging_efficiency s

/-- Embeds `max_footroom_energy_rule` exactly as written in the source: it
sums the variables of the HEADROOM registry (not the footroom one) and
bounds the resulting energy by `Capacity_MW` (the power capacity, not
`Energy_Capacity_MWh`) minus the stored energy net of the timepoint's
charging and discharging. -/
def max_footroom_energy_rule (M : Model) (V : Vars) (d : DynComponents)
    (s : String) (tmp : ℕ) : Prop :=
  ((d.headroom_variables s).map fun c => V.reserve c s tmp).sum
      * M.number_of_hours_in_timepoint tmp
      * M.storage_generic_charging_efficiency s ≤
    M.Capacity_MW s (M.period tmp)
    - V.Starting_Energy_in_Generic_Storage_MWh s tmp
    - V.Generic_Storage_Charge_MW s tmp
      * M.number_of_hours_in_timepoint tmp
      * M.storage_generic_charging_efficiency s
    + V.Generic_Storage_Discharge_MW s tmp
      * M.number_of_hours_in_timepoint tmp
      / M.storage_generic_discharging_efficiency s

/-- The footroom energy constraint as the claim states it: the FOOTROOM
reserve contributions, converted to energy via the charging efficiency, are
bounded by the room left to store energy — the ENERGY capacity minus the
state of charge net of the timepoint's charging and discharging.  Stated
from the claim's words for comparison with `max_footroom_energy_rule`. -/
def max_footroom_energy_claimed (M : Model) (V : Vars) (d : DynComponents)
    (s : String) (tmp : ℕ) : Prop :=
  ((d.footroom_variables s).map fun c => V.reserve c s tmp).sum
      * M.number_of_hours_in_timepoint tmp
      * M.storage_generic_charging_efficiency s ≤
    M.Energy_Capacity_MWh s (M.period tmp)
    - (V.Starting_Energy_in_Generic_Storage_MWh s tmp
      + V.Generic_Storage_Charge_MW s tmp
        * M.number_of_hours_in_timepoint tmp
        * M.storage_generic_charging_efficiency s
      - V.Generic_Storage_Discharge_MW s tmp
        * M.number_of_hours_in_timepoint tmp
        / M.storage_generic_discharging_efficiency s)

/-- Embeds `power_provision_rule`: discharge minus charge. -/
def power_provision_rule (V : Vars) (s : String) (tmp : ℕ) : ℚ :=
  V.Generic_Storage_Discharge_MW s tmp - V.Generic_Storage_Charge_MW s tmp

/-- A concrete three-timepoint circular-boundary storage model used to
exercise the tracking and energy constraints. -/
def witnessModel : Model where
  n := 3
  boundary := Boundary.circular
  number_of_hours_in_timepoint := fun _ => 1
  period := fun _ => 1
  storage_generic_charging_efficiency := fun _ => 1
  storage_generic_discharging_efficiency := fun _ => 1
  Capacity_MW := fun _ _ => 10
  Energy_Capacity_MWh := fun _ _ => 20

/-- A concrete valuation on the witness model: idle storage holding 5 MWh
in every timepoint. -/
def witnessVars : Vars where
  Generic_Storage_Discharge_MW := fun _ _ => 0
  Generic_Storage_Charge_MW := fun _ _ => 0
  Starting_Energy_in_Generic_Storage_MWh := fun _ _ => 5
  reserve := fun _ _ _ => 0

/-- Reserve registries with distinct headroom and footroom members: one
upward product registered as headroom and one downward product registered
as footroom. -/
def swapDyn : DynComponents where
  headroom_variables := fun _ => ["LF_Reserves_Up_MW"]
  footroom_variables := fun _ => ["LF_Reserves_Down_MW"]

/-- A valuation where the storage is full and idle, the downward reserve
contribution is zero and the upward one is 5 MW. -/
def swapVars : Vars where
  Generic_Storage_Discharge_MW := fun _ _ => 0
  Generic_Storage_Charge_MW := fun _ _ => 0
  Starting_Energy_in_Generic_Storage_MWh := fun _ _ => 10
  reserve := fun c _ _ => if c = "LF_Reserves_Up_MW" then 5 else 0

/-- Reserve registries where headroom and footroom coincide, isolating the
power-versus-energy capacity discrepancy. -/
def capDyn : DynComponents where
  headroom_variables := fun _ => ["Reg_MW"]
  footroom_variables := fun _ => ["Reg_MW"]

/-- A storage model whose power capacity (3 MW) is much smaller than its
energy capacity (20 MWh). -/
def capModel : Model where
  n := 3
  boundary := Boundary.circular
  number_of_hours_in_timepoint := fun _ => 1
  period := fun _ => 1
  storage_generic_charging_efficiency := fun _ => 1
  storage_generic_discharging_efficiency := fun _ => 1
  Capacity_MW := fun _ _ => 3
  Energy_Capacity_MWh := fun _ _ => 20

/-- A valuation where the storage is empty and idle and the single reserve
product contributes 5 MW. -/
def capVars : Vars where
  Generic_Storage_Discharge_MW := fun _ _ => 0
  Generic_Storage_Charge_MW := fun _ _ => 0
  Starting_Energy_in_Generic_Storage_MWh := fun _ _ => 0
  reserve := fun _ _ _ => 5

end StorageGeneric

/-- C3: the state-of-charge tracking constraint is skipped exactly at the
first timepoint of a linear-boundary horizon; at every later timepoint it
enforces the charging/discharging recurrence against the previous
timepoint, and at the first timepoint of a circular-boundary horizon it
enforces the same recurrence against the horizon's last timepoint. -/
theorem storage_energy_tracking_C3
    (M : StorageGeneric.Model) (V : StorageGeneric.Vars) (s : String)
    (tmp : ℕ) :
    (StorageGeneric.energy_tracking_rule M V s tmp = none ↔
      (tmp = 0 ∧ M.boundary = StorageGeneric.Boundary.linear)) ∧
    (tmp ≠ 0 →
      StorageGeneric.energy_tracking_rule M V s tmp =
        some (V.Starting_Energy_in_Generic_Storage_MWh s tmp =
          V.Starting_Energy_in_Generic_Storage_MWh s (tmp - 1)
          + V.Generic_Storage_Charge_MW s (tmp - 1)
            * M.number_of_hours_in_timepoint (tmp - 1)
            * M.storage_generic_charging_efficiency s
          - V.Generic_Storage_Discharge_MW s (tmp - 1)
            * M.number_of_hours_in_timepoint (tmp - 1)
            / M.storage_generic_discharging_efficiency s)) ∧
    (M.boundary = StorageGeneric.Boundary.circular →
      StorageGeneric.energy_tracking_rule M V s 0 =
        some (V.Starting_Energy_in_Generic_Storage_MWh s 0 =
          V.Starting_Energy_in_Generic_Storage_MWh s (M.n - 1)
          + V.Generic_Storage_Charge_MW s (M.n - 1)
            * M.number_of_hours_in_timepoint (M.n - 1)
            * M.storage_generic_charging_efficiency s
          - V.Generic_Storage_Discharge_MW s (M.n - 1)
            * M.number_of_hours_in_timepoint (M.n - 1)
            / M.storage_generic_discharging_efficiency s)) := by
  refine ⟨?_, ?_, ?_⟩
  · unfold StorageGeneric.energy_tracking_rule
    split_ifs with h
    · simp [h]
    · simp [h]
  · intro htmp
    simp [StorageGeneric.energy_tracking_rule,
      StorageGeneric.previous_timepoint, htmp]
  · intro hb
    have hlin : M.boundary ≠ StorageGeneric.Boundary.linear := by
      rw [hb]; intro hcontra; cases hcontra
    simp [StorageGeneric.energy_tracking_rule,
      StorageGeneric.previous_timepoint, hb, hlin]

/-- Witness for C3: on the three-timepoint circular witness model the
tracking constraint is not skipped at timepoint 1 nor at the circular
horizon start. -/
theorem storage_energy_tracking_C3_witness :
    StorageGeneric.energy_tracking_rule StorageGeneric.witnessModel
        StorageGeneric.witnessVars "S" 1 ≠ none ∧
    StorageGeneric.energy_tracking_rule StorageGeneric.witnessModel
        StorageGeneric.witnessVars "S" 0 ≠ none := by
  constructor
  · have h := (storage_energy_tracking_C3 StorageGeneric.witnessModel
      StorageGeneric.witnessVars "S" 1).2.1 (by decide)
    rw [h]; simp
  · have h := (storage_energy_tracking_C3 StorageGeneric.witnessModel
      StorageGeneric.witnessVars "S" 0).2.2 rfl
    rw [h]; simp

/-- C5 (code bug): the constraint named `max_footroom_energy_rule` does not
bound the footroom reserve contributions by the energy capacity left in the
tank as the claim states; it sums the HEADROOM registry and uses the power
capacity `Capacity_MW` as the bound.  First conjunct: with distinct
headroom/footroom registries (up = 5 MW, down = 0), the claimed constraint
holds while the source constraint is violated, because the source sums the
wrong registry.  Second conjunct: with identical registries (5 MW) but
power capacity 3 MW and energy capacity 20 MWh on an empty storage, the
claimed constraint holds while the source constraint is violated, because
the source bounds by power rather than energy capacity. -/
theorem storage_footroom_energy_C5_bug :
    (StorageGeneric.max_footroom_energy_claimed StorageGeneric.witnessModel
        StorageGeneric.swapVars StorageGeneric.swapDyn "S" 0 ∧
      ¬ StorageGeneric.max_footroom_energy_rule StorageGeneric.witnessModel
        StorageGeneric.swapVars StorageGeneric.swapDyn "S" 0) ∧
    (StorageGeneric.max_footroom_energy_claimed StorageGeneric.capModel
        StorageGeneric.capVars StorageGeneric.capDyn "S" 0 ∧
      ¬ StorageGeneric.max_footroom_energy_rule StorageGeneric.capModel
        StorageGeneric.capVars StorageGeneric.capDyn "S" 0) := by
  refine ⟨⟨?_, ?_⟩, ⟨?_, ?_⟩⟩ <;>
    simp [StorageGeneric.max_footroom_energy_claimed,
      StorageGeneric.max_footroom_energy_rule, StorageGeneric.witnessModel,
      StorageGeneric.swapVars, StorageGeneric.swapDyn,
      StorageGeneric.capModel, StorageGeneric.capVars,
      StorageGeneric.capDyn] <;> norm_num

/-- C6: for every generic-storage project and operational timepoint, the
state-of-charge variable is nonnegative (its Pyomo domain is
`NonNegativeReals`) and the max-energy constraint bounds it by the energy
capacity in the timepoint's period. -/
theorem storage_soc_bounds_C6
    (M : StorageGeneric.Model) (V : StorageGeneric.Vars)
    (hdom : ∀ s tmp,
      0 ≤ V.Starting_Energy_in_Generic_Storage_MWh s tmp)
    (hcon : ∀ s tmp, StorageGeneric.max_energy_in_storage_rule M V s tmp) :
    ∀ s tmp,
      0 ≤ V.Starting_Energy_in_Generic_Storage_MWh s tmp ∧
      V.Starting_Energy_in_Generic_Storage_MWh s tmp ≤
        M.Energy_Capacity_MWh s (M.period tmp) :=
  fun s tmp => ⟨hdom s tmp, hcon s tmp⟩

/-- Witness for C6: the idle witness valuation satisfies the domain and
constraint hypotheses and the resulting bounds evaluate to 0 ≤ 5 ≤ 20. -/
theorem storage_soc_bounds_C6_witness :
    (0 : ℚ) ≤
      StorageGeneric.witnessVars.Starting_Energy_in_Generic_Storage_MWh
        "S" 0 ∧
    StorageGeneric.witnessVars.Starting_Energy_in_Generic_Storage_MWh
        "S" 0 ≤ 20 :=
  storage_soc_bounds_C6 StorageGeneric.witnessModel
    StorageGeneric.witnessVars (fun s tmp => show (0 : ℚ) ≤ 5 by decide)
    (fun s tmp => show (5 : ℚ) ≤ 20 by decide) "S" 0

/-- C2: for every gen_ret_bin project and operational period, the capacity
is the pre-specified nameplate capacity times `(1 - retire)` and the
annualized capacity cost is the fixed cost per MW-year times the nameplate
capacity times `(1 - retire)`; in the two-period scenario with nameplate
100, fixed cost 10 and retirement forced to 1 in period 2, capacity is
`[100, 0]` and annualized cost is `[1000, 0]`. -/
theorem gen_ret_bin_capacity_and_cost_C2 :
    (∀ (M : GenRetBin.Model) (retire : GenRetBin.Retirement) (g : String)
        (p : ℕ),
      GenRetBin.capacity_rule M retire g p =
        M.gen_ret_bin_capacity_mw g p * (1 - retire g p) ∧
      GenRetBin.capacity_cost_rule M retire g p =
        M.gen_ret_bin_fixed_cost_per_mw_yr g p
          * M.gen_ret_bin_capacity_mw g p * (1 - retire g p)) ∧
    GenRetBin.capacity_rule GenRetBin.scenarioModel GenRetBin.scenarioRetire
      "P" 1 = 100 ∧
    GenRetBin.capacity_rule GenRetBin.scenarioModel GenRetBin.scenarioRetire
      "P" 2 = 0 ∧
    GenRetBin.capacity_cost_rule GenRetBin.scenarioModel
      GenRetBin.scenarioRetire "P" 1 = 1000 ∧
    GenRetBin.capacity_cost_rule GenRetBin.scenarioModel
      GenRetBin.scenarioRetire "P" 2 = 0 := by
  refine ⟨fun M retire g p => ⟨rfl, rfl⟩, ?_, ?_, ?_, ?_⟩ <;>
    simp [GenRetBin.capacity_rule, GenRetBin.capacity_cost_rule,
      GenRetBin.scenarioModel, GenRetBin.scenarioRetire] <;> norm_num

namespace DemandResponse

/-- Embeds the data consulted by the `dr` operational type, with the
temporal-index pieces (`TIMEPOINTS_ON_HORIZON`, `first_horizon_timepoint`,
`period`, per-timepoint durations) modelled from the spec as explicit
per-horizon data, together with the capacity-type results `Capacity_MW`
and `Energy_Capacity_MWh` and the project-horizon set `DR_OPR_HRZS`. -/
structure Model where
  TIMEPOINTS_ON_HORIZON : ℕ → List ℕ
  first_horizon_timepoint : ℕ → ℕ
  number_of_hours_in_timepoint : ℕ → ℚ
  period : ℕ → ℕ
  Capacity_MW : String → ℕ → ℚ
  Energy_Capacity_MWh : String → ℕ → ℚ
  DR_OPR_HRZS : List (String × ℕ)

/-- A valuation of the two demand-response decision variables. -/
structure Vars where
  DR_Shift_Up_MW : String → ℕ → ℚ
  DR_Shift_Down_MW : String → ℕ → ℚ

/-- Embeds `energy_balance_rule`: on each operational horizon the sum of
shift-up over the horizon's timepoints equals the sum of shift-down. -/
def energy_balance_rule (M : Model) (V : Vars) (p : String) (h : ℕ) :
    Prop :=
  ((M.TIMEPOINTS_ON_HORIZON h).map fun tmp => V.DR_Shift_Up_MW p tmp).sum =
    ((M.TIMEPOINTS_ON_HORIZON h).map fun tmp =>
      V.DR_Shift_Down_MW p tmp).sum

/-- Embeds `energy_budget_rule`: total shifted energy on the horizon
equals the project's energy budget, read as its energy capacity in the
period of the horizon's first timepoint. -/
def energy_budget_rule (M : Model) (V : Vars) (p : String) (h : ℕ) :
    Prop :=
  ((M.TIMEPOINTS_ON_HORIZON h).map fun tmp =>
      V.DR_Shift_Up_MW p tmp * M.number_of_hours_in_timepoint tmp).sum =
    M.Energy_Capacity_MWh p (M.period (M.first_horizon_timepoint h))

/-- Embeds `power_provision_rule`: shift-down minus shift-up. -/
def power_provision_rule (V : Vars) (p : String) (tmp : ℕ) : ℚ :=
  V.DR_Shift_Down_MW p tmp - V.DR_Shift_Up_MW p tmp

/-- Embeds `fuel_burn_rule`: a fuel project of this type is reported as an
input error naming the project; otherwise the caller-supplied error
message is raised.  Both branches raise, so the function never returns a
value. -/
def fuel_burn_rule (FUEL_PROJECTS : List String) (p : String) (tmp : ℕ)
    (error_message : String) : Except String ℚ :=
  if p ∈ FUEL_PROJECTS then
    Except.error
      ("ERROR! Shiftable load projects should not use fuel. Check input "
        ++ "data for project " ++ p ++ " and change its fuel to no value.")
  else
    Except.error error_message

/-- Embeds `startup_shutdown_rule`: unconditionally raises an error naming
the project. -/
def startup_shutdown_rule (p : String) (tmp : ℕ) : Except String ℚ :=
  Except.error
    ("ERROR! Shiftable load projects should not incur startup or shutdown "
      ++ "costs. Check input data for project " ++ p
      ++ " and change its startup and shutdown costs to no value.")

/-- A two-timepoint demand-response scenario: one horizon with timepoints
1 and 2 of one hour each and an energy budget of 2 MWh. -/
def drModel : Model where
  TIMEPOINTS_ON_HORIZON := fun _ => [1, 2]
  first_horizon_timepoint := fun _ => 1
  number_of_hours_in_timepoint := fun _ => 1
  period := fun _ => 1
  Capacity_MW := fun _ _ => 5
  Energy_Capacity_MWh := fun _ _ => 2
  DR_OPR_HRZS := [("D", 1)]

/-- A valuation shifting 1 MW up and 1 MW down in each timepoint. -/
def drVars : Vars where
  DR_Shift_Up_MW := fun _ _ => 1
  DR_Shift_Down_MW := fun _ _ => 1

end DemandResponse

/-- Sums of mapped differences split into differences of sums; used to
derive the zero-net-energy consequence of the demand-response balance
constraint. -/
theorem list_sum_map_sub (l : List ℕ) (f g : ℕ → ℚ) :
    (l.map fun x => f x - g x).sum = (l.map f).sum - (l.map g).sum := by
  induction l with
  | nil => simp
  | cons a t ih => simp [ih]; ring

/-- C4: for every demand-response project and operational horizon, the
generated constraints enforce that the sum of shift-up over the horizon's
timepoints equals the sum of shift-down, and that the sum of shift-up
times duration equals the horizon's fixed energy budget; consequently the
project's net power provision summed over the horizon is zero. -/
theorem dr_energy_balance_budget_C4
    (M : DemandResponse.Model) (V : DemandResponse.Vars)
    (hcon : ∀ q ∈ M.DR_OPR_HRZS,
      DemandResponse.energy_balance_rule M V q.1 q.2 ∧
      DemandResponse.energy_budget_rule M V q.1 q.2)
    (p : String) (h : ℕ) (hmem : (p, h) ∈ M.DR_OPR_HRZS) :
    ((M.TIMEPOINTS_ON_HORIZON h).map fun tmp =>
        V.DR_Shift_Up_MW p tmp).sum =
      ((M.TIMEPOINTS_ON_HORIZON h).map fun tmp =>
        V.DR_Shift_Down_MW p tmp).sum ∧
    ((M.TIMEPOINTS_ON_HORIZON h).map fun tmp =>
        V.DR_Shift_Up_MW p tmp * M.number_of_hours_in_timepoint tmp).sum =
      M.Energy_Capacity_MWh p (M.period (M.first_horizon_timepoint h)) ∧
    ((M.TIMEPOINTS_ON_HORIZON h).map fun tmp =>
        DemandResponse.power_provision_rule V p tmp).sum = 0 := by
  obtain ⟨hbal, hbud⟩ := hcon (p, h) hmem
  refine ⟨hbal, hbud, ?_⟩
  unfold DemandResponse.power_provision_rule
  rw [list_sum_map_sub]
  unfold DemandResponse.energy_balance_rule at hbal
  rw [hbal]
  ring

/-- Witness for C4: the symmetric 1 MW shift on the two-timepoint scenario
satisfies both constraints and its net power provision over the horizon is
zero. -/
theorem dr_energy_balance_budget_C4_witness :
    ((DemandResponse.drModel.TIMEPOINTS_ON_HORIZON 1).map fun tmp =>
        DemandResponse.power_provision_rule DemandResponse.drVars
          "D" tmp).sum = 0 := by
  refine (dr_energy_balance_budget_C4 DemandResponse.drModel
    DemandResponse.drVars ?_ "D" 1 (by decide)).2.2
  intro q hq
  simp only [DemandResponse.drModel, List.mem_cons, List.not_mem_nil,
    or_false] at hq
  subst hq
  constructor
  · unfold DemandResponse.energy_balance_rule
    norm_num [DemandResponse.drModel, DemandResponse.drVars]
  · unfold DemandResponse.energy_budget_rule
    norm_num [DemandResponse.drModel, DemandResponse.drVars]

/-- C10: for demand-response projects, `fuel_burn_rule` and
`startup_shutdown_rule` always raise and never return a value;
`fuel_burn_rule` raises an error naming the project when it is a fuel
project and re-raises the caller-supplied message otherwise, and
`startup_shutdown_rule` raises unconditionally with the project's
identity. -/
theorem dr_rules_always_raise_C10
    (FUEL_PROJECTS : List String) (p : String) (tmp : ℕ)
    (error_message : String) :
    (DemandResponse.fuel_burn_rule FUEL_PROJECTS p tmp
        error_message).isOk = false ∧
    (DemandResponse.startup_shutdown_rule p tmp).isOk = false ∧
    DemandResponse.fuel_burn_rule FUEL_PROJECTS p tmp error_message =
      Except.error
        (if p ∈ FUEL_PROJECTS then
          "ERROR! Shiftable load projects should not use fuel. Check input "
            ++ "data for project " ++ p ++ " and change its fuel to no value."
        else error_message) ∧
    (∃ a b, DemandResponse.startup_shutdown_rule p tmp =
      Except.error (a ++ p ++ b)) := by
  refine ⟨?_, rfl, ?_, ?_⟩
  · unfold DemandResponse.fuel_burn_rule
    split_ifs <;> rfl
  · unfold DemandResponse.fuel_burn_rule
    split_ifs with hmem <;> simp [hmem]
  · exact ⟨"ERROR! Shiftable load projects should not incur startup or "
      ++ "shutdown costs. Check input data for project ",
      " and change its startup and shutdown costs to no value.", rfl⟩

namespace LocalCapacity

/-- Embeds the data consulted by the local-capacity balance module: the
zone-period keys with a requirement, the requirement parameter, and the
values of the provision components registered in the dynamic list
`local_capacity_balance_provision_components` (component name, zone,
period). -/
structure Model where
  LOCAL_CAPACITY_ZONE_PERIODS_WITH_REQUIREMENT : List (String × ℕ)
  local_capacity_requirement_mw : String → ℕ → ℚ
  provision_components : List String
  component_value : String → String → ℕ → ℚ

/-- Embeds `Total_Local_Capacity_from_All_Sources_Expression_MW`: the sum
of the registered provision components at the zone-period key. -/
def Total_Local_Capacity_from_All_Sources_Expression_MW (M : Model)
    (z : String) (p : ℕ) : ℚ :=
  (M.provision_components.map fun c => M.component_value c z p).sum

/-- Embeds `local_capacity_requirement_rule`: total provision plus the
shortage variable is at least the requirement. -/
def local_capacity_requirement_rule (M : Model)
    (shortage : String → ℕ → ℚ) (z : String) (p : ℕ) : Prop :=
  Total_Local_Capacity_from_All_Sources_Expression_MW M z p
    + shortage z p ≥ M.local_capacity_requirement_mw z p

end LocalCapacity

/-- C7: the local-capacity balance constraint is
`sum(components) + shortage >= requirement` with a nonnegative shortage
slack that is always present, so for any registered contributions and any
requirement there is a nonnegative shortage valuation satisfying every
generated constraint. -/
theorem local_capacity_balance_C7 (M : LocalCapacity.Model) :
    (∀ shortage z p,
      LocalCapacity.local_capacity_requirement_rule M shortage z p ↔
        LocalCapacity.Total_Local_Capacity_from_All_Sources_Expression_MW
            M z p + shortage z p ≥
          M.local_capacity_requirement_mw z p) ∧
    ∃ shortage : String → ℕ → ℚ,
      (∀ z p, 0 ≤ shortage z p) ∧
      ∀ q ∈ M.LOCAL_CAPACITY_ZONE_PERIODS_WITH_REQUIREMENT,
        LocalCapacity.local_capacity_requirement_rule M shortage q.1 q.2 := by
  refine ⟨fun shortage z p => Iff.rfl, ?_⟩
  refine ⟨fun z p => max 0 (M.local_capacity_requirement_mw z p -
    LocalCapacity.Total_Local_Capacity_from_All_Sources_Expression_MW
      M z p), fun z p => le_max_left _ _, ?_⟩
  intro q hq
  unfold LocalCapacity.local_capacity_requirement_rule
  have h := le_max_right 0 (M.local_capacity_requirement_mw q.1 q.2 -
    LocalCapacity.Total_Local_Capacity_from_All_Sources_Expression_MW
      M q.1 q.2)
  linarith

/-- A concrete local-capacity model: one zone with a 7 MW requirement in
one period and two registered provision components worth 2 MW and 1 MW. -/
def lcModel : LocalCapacity.Model where
  LOCAL_CAPACITY_ZONE_PERIODS_WITH_REQUIREMENT := [("Z", 1)]
  local_capacity_requirement_mw := fun _ _ => 7
  provision_components := ["Cap_A", "Cap_B"]
  component_value := fun c _ _ => if c = "Cap_A" then 2 else 1

/-- Witness for C7: on the concrete one-zone model, the shortage valuation
produced by the theorem satisfies the balance constraint at the zone's
requirement key. -/
theorem local_capacity_balance_C7_witness :
    ∃ shortage : String → ℕ → ℚ,
      (∀ z p, 0 ≤ shortage z p) ∧
      ∀ q ∈ lcModel.LOCAL_CAPACITY_ZONE_PERIODS_WITH_REQUIREMENT,
        LocalCapacity.local_capacity_requirement_rule lcModel
          shortage q.1 q.2 :=
  (local_capacity_balance_C7 lcModel).2

namespace ObjectiveAssembly

/-- Optimization sense of a Pyomo objective. -/
inductive Sense where
  | minimize
  | maximize
deriving DecidableEq

/-- A built objective: its expression value and its sense. -/
structure Objective where
  expr : ℚ
  sense : Sense

/-- Embeds `total_cost_rule`: the sum of the values of every expression
name currently registered in the total-cost component list. -/
def total_cost_rule (total_cost_components : List String)
    (env : String → ℚ) : ℚ :=
  (total_cost_components.map env).sum

/-- Embeds `min_total_cost.add_model_components`: the module registers its
four cost expressions in the total-cost list and then builds the objective
`Total_Cost` as `total_cost_rule` over the resulting list with sense
`minimize`. -/
def min_total_cost_add_model_components (d : List String)
    (env : String → ℚ) : List String × Objective :=
  let d1 := d ++ ["Penalty_Costs", "Total_Generation_Cost",
    "Total_Startup_Cost", "Total_Shutdown_Cost"]
  (d1, ⟨total_cost_rule d1 env, Sense.minimize⟩)

/-- Embeds `frequency_response.add_model_components`: the generic helper
registers `Frequency_Response_Penalty_Costs` in the total-cost list (the
helper lives outside the studied sources; modelled from the spec as a
registration of the name it is passed) and the module then directly
appends `Frequency_Response_Partial_Penalty_Costs`. -/
def frequency_response_add_model_components (d : List String) :
    List String :=
  d ++ ["Frequency_Response_Penalty_Costs",
    "Frequency_Response_Partial_Penalty_Costs"]

end ObjectiveAssembly

/-- C8: the objective is built with sense minimize and equals the sum of
every expression name registered in the total-cost list at build time;
running the frequency-response module and then the objective module leaves
exactly the initial registrations followed by the two frequency-response
penalty expressions and the four cost expressions, all present in the list
the objective sums over. -/
theorem objective_total_cost_C8 (d0 : List String) (env : String → ℚ) :
    (ObjectiveAssembly.min_total_cost_add_model_components
        (ObjectiveAssembly.frequency_response_add_model_components d0)
        env).2.sense = ObjectiveAssembly.Sense.minimize ∧
    (ObjectiveAssembly.min_total_cost_add_model_components
        (ObjectiveAssembly.frequency_response_add_model_components d0)
        env).2.expr =
      (((ObjectiveAssembly.min_total_cost_add_model_components
        (ObjectiveAssembly.frequency_response_add_model_components d0)
        env).1).map env).sum ∧
    (ObjectiveAssembly.min_total_cost_add_model_components
        (ObjectiveAssembly.frequency_response_add_model_components d0)
        env).1 =
      d0 ++ ["Frequency_Response_Penalty_Costs",
        "Frequency_Response_Partial_Penalty_Costs", "Penalty_Costs",
        "Total_Generation_Cost", "Total_Startup_Cost",
        "Total_Shutdown_Cost"] ∧
    ∀ c ∈ ["Frequency_Response_Penalty_Costs",
        "Frequency_Response_Partial_Penalty_Costs", "Penalty_Costs",
        "Total_Generation_Cost", "Total_Startup_Cost",
        "Total_Shutdown_Cost"],
      c ∈ (ObjectiveAssembly.min_total_cost_add_model_components
        (ObjectiveAssembly.frequency_response_add_model_components d0)
        env).1 := by
  refine ⟨rfl, rfl, by
    simp [ObjectiveAssembly.min_total_cost_add_model_components,
      ObjectiveAssembly.frequency_response_add_model_components], ?_⟩
  intro c hc
  simp only [ObjectiveAssembly.min_total_cost_add_model_components,
    ObjectiveAssembly.frequency_response_add_model_components,
    List.append_assoc, List.mem_append] at hc ⊢
  simp only [List.mem_cons, List.not_mem_nil, or_false] at hc
  rcases hc with h | h | h | h | h | h <;> subst h <;> right <;> simp

/-- Witness for C8: with no prior registrations and every expression worth
1, the six registered names are all in the built list. -/
theorem objective_total_cost_C8_witness :
    (ObjectiveAssembly.min_total_cost_add_model_components
        (ObjectiveAssembly.frequency_response_add_model_components [])
        (fun _ => (1 : ℚ))).1 =
      ["Frequency_Response_Penalty_Costs",
        "Frequency_Response_Partial_Penalty_Costs", "Penalty_Costs",
        "Total_Generation_Cost", "Total_Startup_Cost",
        "Total_Shutdown_Cost"] :=
  (objective_total_cost_C8 [] (fun _ => (1 : ℚ))).2.2.1


namespace GenRetBinLoad

/-- A row of the `specified_generation_period_params.tab` input: project,
period, specified capacity and fixed cost. -/
structure ParamsRow where
  project : String
  period : ℕ
  specified_capacity_mw : ℚ
  fixed_cost_per_mw_yr : ℚ
deriving DecidableEq

/-- Embeds `determine_gen_ret_bin_projects`: the projects whose capacity
type in the projects table is `gen_ret_bin`. -/
def determine_gen_ret_bin_projects
    (projectsTab : List (String × String)) : List String :=
  (projectsTab.filter fun r => r.2 == "gen_ret_bin").map Prod.fst

/-- The parameter rows kept by `determine_period_params`: those whose
project is in the declared generators list. -/
def kept_rows (projectsTab : List (String × String))
    (paramsTab : List ParamsRow) : List ParamsRow :=
  paramsTab.filter fun r =>
    (determine_gen_ret_bin_projects projectsTab).contains r.project

/-- The `generator_period_list` local of `determine_period_params`. -/
def generator_period_list (projectsTab : List (String × String))
    (paramsTab : List ParamsRow) : List (String × ℕ) :=
  (kept_rows projectsTab paramsTab).map fun r => (r.project, r.period)

/-- The `gen_ret_bin_capacity_mw_dict` local of
`determine_period_params`, as an association list. -/
def capacity_dict (projectsTab : List (String × String))
    (paramsTab : List ParamsRow) : List ((String × ℕ) × ℚ) :=
  (kept_rows projectsTab paramsTab).map fun r =>
    ((r.project, r.period), r.specified_capacity_mw)

/-- The `gen_ret_bin_fixed_cost_per_mw_yr_dict` local of
`determine_period_params`, as an association list. -/
def fixed_cost_dict (projectsTab : List (String × String))
    (paramsTab : List ParamsRow) : List ((String × ℕ) × ℚ) :=
  (kept_rows projectsTab paramsTab).map fun r =>
    ((r.project, r.period), r.fixed_cost_per_mw_yr)

/-- The `gen_w_params` local of `determine_period_params`: the projects
that appear in at least one kept row. -/
def gen_w_params (projectsTab : List (String × String))
    (paramsTab : List ParamsRow) : List String :=
  (generator_period_list projectsTab paramsTab).map Prod.fst

/-- The `diff` local of `determine_period_params`: declared gen_ret_bin
projects with no parameter row. -/
def params_diff (projectsTab : List (String × String))
    (paramsTab : List ParamsRow) : List String :=
  (determine_gen_ret_bin_projects projectsTab).filter fun g =>
    !((gen_w_params projectsTab paramsTab).contains g)

/-- Embeds `determine_period_params`: raise (return an error carrying the
offending project names) when some declared gen_ret_bin project has no
parameter row at all, and otherwise return the project-period list and
the two parameter dictionaries built from the kept rows. -/
def determine_period_params (projectsTab : List (String × String))
    (paramsTab : List ParamsRow) :
    Except (List String)
      (List (String × ℕ) × List ((String × ℕ) × ℚ) ×
        List ((String × ℕ) × ℚ)) :=
  if params_diff projectsTab paramsTab = [] then
    Except.ok (generator_period_list projectsTab paramsTab,
      capacity_dict projectsTab paramsTab,
      fixed_cost_dict projectsTab paramsTab)
  else
    Except.error (params_diff projectsTab paramsTab)

/-- A declared project is outside `gen_w_params` precisely when no
parameter row mentions it. -/
theorem gen_w_params_contains_false_iff
    (projectsTab : List (String × String)) (paramsTab : List ParamsRow)
    (g : String)
    (hg : g ∈ determine_gen_ret_bin_projects projectsTab) :
    ((gen_w_params projectsTab paramsTab).contains g = false ↔
      ∀ r ∈ paramsTab, r.project ≠ g) := by
  have hiff : (gen_w_params projectsTab paramsTab).contains g = true ↔
      g ∈ gen_w_params projectsTab paramsTab := List.elem_iff
  constructor
  · intro hfalse r hr hrg
    have hmem : g ∈ gen_w_params projectsTab paramsTab := by
      unfold gen_w_params generator_period_list kept_rows
      refine List.mem_map.mpr ⟨(r.project, r.period),
        List.mem_map.mpr ⟨r, List.mem_filter.mpr ⟨hr, ?_⟩, rfl⟩, hrg⟩
      have : r.project ∈ determine_gen_ret_bin_projects projectsTab := by
        rw [hrg]; exact hg
      exact List.elem_iff.mpr this
    have := hiff.mpr hmem
    rw [hfalse] at this
    cases this
  · intro hnone
    cases hb : (gen_w_params projectsTab paramsTab).contains g
    · rfl
    · exfalso
      have hm := hiff.mp hb
      unfold gen_w_params generator_period_list kept_rows at hm
      rcases List.mem_map.mp hm with ⟨q, hq, hqg⟩
      rcases List.mem_map.mp hq with ⟨r, hrkept, hrq⟩
      have hrtab := (List.mem_filter.mp hrkept).1
      have hp : r.project = g := by
        have := congrArg Prod.fst hrq
        simp only at this
        rw [this, hqg]
      exact hnone r hrtab hp

end GenRetBinLoad

/-- Counterexample to C9: in a scenario whose temporal periods are 1 and
2, project `P` is declared `gen_ret_bin` and has capacity/fixed-cost data
for period 1 only, yet loading succeeds — it does not fail when data is
absent for one of the project's periods; and when loading does fail
(second conjunct: no rows at all), the error payload carries project
names only, never a period. -/
theorem gen_ret_bin_load_C9_counterexample :
    GenRetBinLoad.determine_period_params [("P", "gen_ret_bin")]
        [⟨"P", 1, 100, 10⟩] =
      Except.ok ([("P", 1)], [(("P", 1), 100)], [(("P", 1), 10)]) ∧
    GenRetBinLoad.determine_period_params [("P", "gen_ret_bin")] [] =
      Except.error ["P"] := by
  constructor <;> rfl

/-- C9 (amended): loading fails exactly when some declared gen_ret_bin
project has no capacity/fixed-cost row for any period at all, and the
error payload names exactly such projects, with no period attached. -/
theorem gen_ret_bin_load_C9_amended
    (projectsTab : List (String × String))
    (paramsTab : List GenRetBinLoad.ParamsRow) :
    ((GenRetBinLoad.determine_period_params projectsTab
        paramsTab).isOk = false ↔
      ∃ g ∈ GenRetBinLoad.determine_gen_ret_bin_projects projectsTab,
        ∀ r ∈ paramsTab, r.project ≠ g) ∧
    ∀ d, GenRetBinLoad.determine_period_params projectsTab paramsTab =
        Except.error d →
      ∀ g ∈ d,
        g ∈ GenRetBinLoad.determine_gen_ret_bin_projects projectsTab ∧
        ∀ r ∈ paramsTab, r.project ≠ g := by
  constructor
  · unfold GenRetBinLoad.determine_period_params
    split_ifs with hnil
    · simp only [Except.isOk, Except.toBool]
      constructor
      · intro h; cases h
      · intro ⟨g, hg, hnone⟩
        exfalso
        have hng := List.filter_eq_nil_iff.mp hnil g hg
        have hfalse := (GenRetBinLoad.gen_w_params_contains_false_iff
          projectsTab paramsTab g hg).mpr hnone
        rw [hfalse] at hng
        exact hng rfl
    · simp only [Except.isOk, Except.toBool]
      refine ⟨fun _ => ?_, fun _ => trivial⟩
      rcases List.exists_cons_of_ne_nil hnil with ⟨g, t, hgt⟩
      have hgmem : g ∈ GenRetBinLoad.params_diff projectsTab paramsTab := by
        unfold GenRetBinLoad.params_diff
        unfold GenRetBinLoad.params_diff at hgt
        rw [hgt]
        exact List.mem_cons_self g t
      have h1 := (List.mem_filter.mp hgmem).1
      have h2 := (List.mem_filter.mp hgmem).2
      refine ⟨g, h1, (GenRetBinLoad.gen_w_params_contains_false_iff
        projectsTab paramsTab g h1).mp ?_⟩
      cases hb : (GenRetBinLoad.gen_w_params projectsTab
          paramsTab).contains g
      · rfl
      · rw [hb] at h2; cases h2
  · intro d hd g hgd
    unfold GenRetBinLoad.determine_period_params at hd
    by_cases hnil : GenRetBinLoad.params_diff projectsTab paramsTab = []
    · rw [if_pos hnil] at hd
      cases hd
    · rw [if_neg hnil] at hd
      injection hd with hd'
      subst hd'
      have h1 := (List.mem_filter.mp hgd).1
      have h2 := (List.mem_filter.mp hgd).2
      refine ⟨h1, (GenRetBinLoad.gen_w_params_contains_false_iff
        projectsTab paramsTab g h1).mp ?_⟩
      cases hb : (GenRetBinLoad.gen_w_params projectsTab
          paramsTab).contains g
      · rfl
      · rw [hb] at h2; cases h2

/-- Witness for C9 (amended): a declared gen_ret_bin project with no
parameter rows makes loading fail. -/
theorem gen_ret_bin_load_C9_amended_witness :
    (GenRetBinLoad.determine_period_params [("P", "gen_ret_bin")]
      ([] : List GenRetBinLoad.ParamsRow)).isOk = false :=
  (gen_ret_bin_load_C9_amended [("P", "gen_ret_bin")] []).1.mpr
    ⟨"P", by decide, fun r hr => absurd hr (List.not_mem_nil r)⟩
